import Mathlib

/-!
Verification of the surikafka delivery adapter (`src/writer.rs`).

The repository wraps an upstream asynchronous stream of `String` messages
and republishes each message to a Kafka topic through an rdkafka
`FutureProducer`, holding at most one in-flight delivery at a time.  The
core is `Writer::poll`, a futures-0.1 cooperative poll step.

Shallow embedding conventions:

* `Poll<T, E>` results of the futures 0.1 contract are four-way signals
  (`NotReady` / `Ready(Some _)` / `Ready(None)` / `Err _`): `PollR` below.
* The upstream stream `S : Stream<Item=String, Error=Error>` is external
  to `writer.rs`; it is modelled at its interface boundary as a script of
  poll responses consumed one per poll (`UpResp`).  An exhausted script
  keeps reporting end-of-sequence.
* The rdkafka producer is external; its observable interior (which
  outcome each successive in-flight handle will follow, and the log of
  submitted records) is modelled as a `Broker` state threaded through the
  operations, while the `producer` field of the `Writer` stays the inert
  handle the Rust struct stores.  A `DeliveryFuture` resolves to its
  scripted outcome after a scripted number of not-ready polls, matching
  the spec's `InFlightHandle` contract
  (`NotReady / Ready(Ok(partition, offset)) / Ready(Err(error, payload))`).
* The error types (`errors::Error`, Kafka errors) are opaque payloads
  carried verbatim; they are modelled as `String`.
* Machine integers `i32`/`i64` (partition, offset) are modelled as `Int`;
  no arithmetic is performed on them.
-/

namespace Surikafka

/-- One response of the upstream stream to a poll, following the
futures-0.1 `Stream` contract used at `S: Stream<Item=String, Error=Error>`:
`NotReady`, `Ready(Some msg)`, `Ready(None)` (end of sequence), or
`Err e`. -/
inductive UpResp : Type where
  | notReady : UpResp
  | item : String → UpResp
  | ended : UpResp
  | error : String → UpResp
deriving DecidableEq, Repr

/-- Modelled from the spec: the Upstream Sequence is a non-blocking
pollable producer; a poll consumes the next scripted response, and an
exhausted script signals end-of-sequence. -/
def upPoll : List UpResp → UpResp × List UpResp
  | [] => (UpResp.ended, [])
  | r :: rest => (r, rest)

/-- Resolution of a delivery: `Ok((partition, offset))` or
`Err((error, original payload))`, as matched in `Writer::poll`
(src/src/writer.rs:85-92). -/
inductive DOutcome : Type where
  | ok : Int → Int → DOutcome
  | err : String → String → DOutcome
deriving DecidableEq, Repr

/-- The rdkafka `DeliveryFuture` in-flight handle, modelled at the
interface boundary the spec gives it: it polls `NotReady` for `delay`
polls and then resolves to `outcome`. -/
structure DeliveryFuture : Type where
  delay : Nat
  outcome : DOutcome
deriving DecidableEq, Repr

/-- Response of one poll of a `DeliveryFuture`. -/
inductive FResp : Type where
  | notReady : FResp
  | ready : DOutcome → FResp
deriving DecidableEq, Repr

/-- Poll the in-flight handle: not ready while `delay > 0` (the handle
after the poll is one step closer to resolution), resolved afterwards. -/
def DeliveryFuture.poll : DeliveryFuture → FResp × DeliveryFuture
  | ⟨0, oc⟩ => (FResp.ready oc, ⟨0, oc⟩)
  | ⟨d + 1, oc⟩ => (FResp.notReady, ⟨d, oc⟩)

/-- The record submitted to the producer: `FutureRecord::to(topic)`
optionally carrying a key and a payload (src/src/writer.rs:53-56). -/
structure FutureRecord (κ : Type) : Type where
  topic : String
  key : Option κ
  payload : Option String
deriving DecidableEq, Repr

/-- `FutureRecord::to(topic)`: a record for `topic` with no key or
payload yet. -/
def FutureRecord.to (κ : Type) (topic : String) : FutureRecord κ :=
  ⟨topic, none, none⟩

/-- The rdkafka record builder step attaching the routing key (the
source's `record.key(&key)`), modelled at the spec's interface boundary:
the submitted record carries `(topic, key, payload)`. -/
def FutureRecord.setKey {κ : Type} (r : FutureRecord κ) (k : κ) : FutureRecord κ :=
  { r with key := some k }

/-- The rdkafka record builder step attaching the payload (the source's
`record.payload(&msg)`). -/
def FutureRecord.setPayload {κ : Type} (r : FutureRecord κ) (p : String) : FutureRecord κ :=
  { r with payload := some p }

/-- The `FutureProducer<C>` handle stored in the `producer` field of the
`Writer` struct.  The handle itself is inert configuration; the client's
observable interior lives in `Broker`. -/
structure FutureProducer : Type where
  config : String
deriving DecidableEq, Repr

/-- Modelled from the spec: the Publish Client's interior, external to
the adapter.  `scripts` fixes, for each successive submission, the
in-flight handle that submission returns; `sent` is the log of submitted
records in submission order (the observation the spec's ordering
properties quantify over). -/
structure Broker (κ : Type) : Type where
  scripts : List DeliveryFuture
  sent : List (FutureRecord κ)
deriving DecidableEq, Repr

/-- `FutureProducer::send(record, timeout)` (called at
src/src/writer.rs:57 with a 1000 ms timeout): logs the submitted record
and hands back the next scripted in-flight handle.  Timeout enforcement
is the client's business and is inert here. -/
def FutureProducer.send {κ : Type} (_p : FutureProducer) (b : Broker κ)
    (record : FutureRecord κ) (_timeoutMs : Nat) : DeliveryFuture × Broker κ :=
  (b.scripts.headD ⟨0, DOutcome.ok 0 0⟩,
    { b with scripts := b.scripts.tail, sent := b.sent ++ [record] })

/-- The `KeyGenerator` capability (`src/key.rs`, consumed at
src/src/writer.rs:52): `generate(msg) -> Key`, synchronous and
infallible. -/
structure KeyGenerator (κ : Type) : Type where
  generate : String → κ

/-- The result of one `Writer::poll` call, i.e. one
`Poll<Option<()>, Error>`: `notReady` is the spec's `Suspend`, `yield`
is `Ok(Ready(Some(())))`, `ended` is `Ok(Ready(None))` = `End`, and
`failed e` is `Err(e)` = `Fail(e)`. -/
inductive PollR : Type where
  | notReady : PollR
  | yield : PollR
  | ended : PollR
  | failed : String → PollR
deriving DecidableEq, Repr, BEq

/-- The `Writer` struct (src/src/writer.rs:18-28): upstream stream,
topic, key generator, producer handle, and the optional outstanding
(pending) delivery. -/
structure Writer (κ : Type) : Type where
  inner : List UpResp
  topic : String
  generator : KeyGenerator κ
  producer : FutureProducer
  outstanding : Option DeliveryFuture

/-- `Writer::new` (src/src/writer.rs:36-49): plain construction, no
outstanding delivery. -/
def Writer.new {κ : Type} (stream : List UpResp) (topic : String)
    (generator : KeyGenerator κ) (producer : FutureProducer) : Writer κ :=
  { inner := stream, topic := topic, generator := generator,
    producer := producer, outstanding := none }

/-- `Writer::send` (src/src/writer.rs:51-57): derive the key with the
generator, build the record for the topic with that key and the message
payload, and submit it to the producer with a 1000 ms timeout, returning
the in-flight handle.  The writer's own fields are untouched; the
submission mutates only the client's interior. -/
def Writer.send {κ : Type} (w : Writer κ) (b : Broker κ) (msg : String) :
    DeliveryFuture × Writer κ × Broker κ :=
  let key := w.generator.generate msg
  let record := FutureRecord.to κ w.topic
  let record := record.setKey key
  let record := record.setPayload msg
  match w.producer.send b record 1000 with
  | (fut, b') => (fut, w, b')

/-- `Writer::poll` (src/src/writer.rs:81-108), translated branch by
branch.

With an outstanding delivery: `self.outstanding.take()` removes the
handle, and `try_ready!(f.poll())` early-returns `NotReady` when the
handle is unresolved — the taken handle is dropped, so `outstanding`
stays `None` on that path.  A resolved failure is logged and the first
`try_ready!` over `outstanding_ready = Ok(Async::NotReady)` early-returns
`NotReady`; a resolved success returns `Ready(Some(()))`.

With no outstanding delivery: poll upstream (`try_ready!` propagates its
`NotReady` and `Err` directly); a yielded message is sent and the
returned handle stored as the new outstanding delivery, returning
`NotReady`; end of upstream returns `Ready(None)`. -/
def Writer.poll {κ : Type} (w : Writer κ) (b : Broker κ) :
    PollR × Writer κ × Broker κ :=
  match w.outstanding with
  | some f =>
    match (DeliveryFuture.poll f).1 with
    | FResp.notReady => (PollR.notReady, { w with outstanding := none }, b)
    | FResp.ready (DOutcome.err _e _msg) =>
        (PollR.notReady, { w with outstanding := none }, b)
    | FResp.ready (DOutcome.ok _p _o) =>
        (PollR.yield, { w with outstanding := none }, b)
  | none =>
    match upPoll w.inner with
    | (UpResp.error e, rest) => (PollR.failed e, { w with inner := rest }, b)
    | (UpResp.notReady, rest) => (PollR.notReady, { w with inner := rest }, b)
    | (UpResp.ended, rest) => (PollR.ended, { w with inner := rest }, b)
    | (UpResp.item msg, rest) =>
      match Writer.send { w with inner := rest } b msg with
      | (fut, w1, b1) => (PollR.notReady, { w1 with outstanding := some fut }, b1)

/-- Drive the adapter: call `poll` repeatedly (the external cooperative
scheduler of the spec, re-invoking on `Suspend`), collecting the poll
results, stopping at `End` or `Fail` or when the fuel runs out. -/
def driveN {κ : Type} : Nat → Writer κ → Broker κ → List PollR × Writer κ × Broker κ
  | 0, w, b => ([], w, b)
  | n + 1, w, b =>
    match w.poll b with
    | (PollR.ended, w', b') => ([PollR.ended], w', b')
    | (PollR.failed e, w', b') => ([PollR.failed e], w', b')
    | (r, w', b') =>
      match driveN n w' b' with
      | (rs, w'', b'') => (r :: rs, w'', b'')

/-- Observable collaborator-boundary events of one poll step, derived
from the states around it: a resolution is observed exactly when the
step starts with an outstanding handle whose delay has elapsed, and the
submissions of the step are the records the client's log gained. -/
inductive Event (κ : Type) : Type where
  | submit : FutureRecord κ → Event κ
  | resolve : DOutcome → Event κ
deriving DecidableEq, Repr

/-- The events of one step from `(w, b)` to client state `b'`. -/
def stepEvents {κ : Type} (w : Writer κ) (b b' : Broker κ) : List (Event κ) :=
  (match w.outstanding with
   | some f => if f.delay = 0 then [Event.resolve f.outcome] else []
   | none => []) ++ (b'.sent.drop b.sent.length).map Event.submit

/-- The collaborator-boundary event trace of a drive of the adapter. -/
def driveTraceN {κ : Type} : Nat → Writer κ → Broker κ → List (Event κ)
  | 0, _, _ => []
  | n + 1, w, b =>
    match w.poll b with
    | (PollR.ended, _, b') => stepEvents w b b'
    | (PollR.failed _, _, b') => stepEvents w b b'
    | (_, w', b') => stepEvents w b b' ++ driveTraceN n w' b'

/-- Number of Pending Deliveries held by the adapter. -/
def pendingCount {κ : Type} (w : Writer κ) : Nat :=
  w.outstanding.toList.length

/-- Identity key generator over `String` keys, used for concrete runs. -/
def gen0 : KeyGenerator String := ⟨fun s => s⟩

/-- An inert producer handle for concrete runs. -/
def prod0 : FutureProducer := ⟨""⟩

/-- An empty broker interior: no scripted handles (a submission then
returns an immediately successful handle), nothing submitted yet. -/
def b0 : Broker String := ⟨[], []⟩

/-- A writer already holding a Pending Delivery whose in-flight handle is
not yet resolved (one more not-ready poll before it would resolve
successfully). -/
def w0c1 : Writer String :=
  ⟨[], "t", gen0, prod0, some ⟨1, DOutcome.ok 0 7⟩⟩

/-- Two upstream messages, both deliveries scripted to resolve
successfully after one not-ready poll. -/
def w0c2 : Writer String :=
  Writer.new [UpResp.item "m1", UpResp.item "m2"] "t" gen0 prod0

/-- Broker scripts for `w0c2`: each handle needs one extra poll. -/
def b0c2 : Broker String :=
  ⟨[⟨1, DOutcome.ok 0 0⟩, ⟨1, DOutcome.ok 0 1⟩], []⟩

/-- One upstream message whose delivery resolves successfully after one
not-ready poll. -/
def w0c5 : Writer String :=
  Writer.new [UpResp.item "string1"] "t" gen0 prod0

/-- Broker script for `w0c5`. -/
def b0c5 : Broker String := ⟨[⟨1, DOutcome.ok 0 0⟩], []⟩

/-- Two upstream messages: the first delivery succeeds after one
not-ready poll, the second fails immediately. -/
def w0c6 : Writer String :=
  Writer.new [UpResp.item "m1", UpResp.item "m2"] "t" gen0 prod0

/-- Broker scripts for `w0c6`: one delayed success, one immediate
failure. -/
def b0c6 : Broker String :=
  ⟨[⟨1, DOutcome.ok 0 0⟩, ⟨0, DOutcome.err "boom" "m2"⟩], []⟩

/-- A writer whose upstream ends and then (contract-violatingly for a
well-behaved driver, but observably for the adapter) yields one more
message. -/
def w0c8 : Writer String :=
  Writer.new [UpResp.ended, UpResp.item "x"] "t" gen0 prod0

/-- The state of `w0c8` after the first poll returned `End`. -/
def w1c8 : Writer String :=
  ⟨[UpResp.item "x"], "t", gen0, prod0, none⟩

/-- A list grows when a single element is appended. -/
theorem append_singleton_ne {α : Type} (l : List α) (x : α) : l ++ [x] ≠ l := by
  intro h
  have hlen := congrArg List.length h
  simp at hlen

/-- The adapter never holds more than one Pending Delivery: the
`outstanding` field is a single `Option`. -/
theorem pendingCount_le_one {κ : Type} (w : Writer κ) : pendingCount w ≤ 1 := by
  cases h : w.outstanding <;> simp [pendingCount, h]

/-- A poll of an idle adapter (no Pending Delivery) submits a publish
exactly when the renewed upstream poll yields a message, and when the
upstream poll signals end-of-sequence the step returns `End` with no
submission. -/
theorem idle_poll_submits_iff {κ : Type} (w : Writer κ) (b : Broker κ)
    (hout : w.outstanding = none) :
    ((w.poll b).2.2.sent ≠ b.sent ↔ ∃ m rest, w.inner = UpResp.item m :: rest) ∧
    ((upPoll w.inner).1 = UpResp.ended →
      (w.poll b).1 = PollR.ended ∧ (w.poll b).2.2.sent = b.sent) := by
  obtain ⟨inn, tp, gen, pr, outs⟩ := w
  simp only at hout
  subst hout
  cases inn with
  | nil => simp [Writer.poll, upPoll]
  | cons r rest =>
    cases r <;>
      simp [Writer.poll, upPoll, Writer.send, FutureProducer.send,
        FutureRecord.to, FutureRecord.setKey, FutureRecord.setPayload,
        append_singleton_ne]

/-- C1: claimed — with a Pending Delivery whose handle polls as not yet
resolved, `advance` returns `Suspend` and the same Pending Delivery is
still held.  The code does return `Suspend`, but `outstanding.take()`
followed by `try_ready!`'s early return drops the taken handle: after
the call no Pending Delivery is held at all, so the state is not
unchanged. -/
theorem c1_unresolved_poll_drops_pending :
    (w0c1.poll b0).1 = PollR.notReady ∧
    (w0c1.poll b0).2.1.outstanding = none ∧
    (w0c1.poll b0).2.2 = b0 := by
  decide

/-- C2: claimed — submissions happen in upstream order and submission
K+1 never occurs before submission K's handle has resolved.  On two
upstream messages whose deliveries each need one extra poll, the
collaborator-boundary trace of a full drive is two submissions with no
resolution event at all: the second submission occurs although the first
handle never resolved (it was dropped while unresolved). -/
theorem c2_second_submission_before_first_resolution :
    driveTraceN 6 w0c2 b0c2 =
      [Event.submit ⟨"t", some "m1", some "m1"⟩,
       Event.submit ⟨"t", some "m2", some "m2"⟩] := by
  decide

/-- C3: when the adapter holds no Pending Delivery and upstream yields a
message, `advance` submits a record carrying the configured topic, the
key derived by the Key Generator from the message, and the message as
payload; it stores the handle returned by `send` as the new Pending
Delivery and returns `Suspend`. -/
theorem c3_idle_message_submits {κ : Type} (w : Writer κ) (b : Broker κ)
    (msg : String) (rest : List UpResp)
    (hout : w.outstanding = none) (hin : w.inner = UpResp.item msg :: rest) :
    (w.poll b).1 = PollR.notReady ∧
    (w.poll b).2.2.sent =
      b.sent ++ [⟨w.topic, some (w.generator.generate msg), some msg⟩] ∧
    (w.poll b).2.1.outstanding = some ((w.send b msg).1) ∧
    (w.poll b).2.1.inner = rest := by
  obtain ⟨inn, tp, gen, pr, outs⟩ := w
  simp only at hout hin
  subst hout
  subst hin
  simp [Writer.poll, upPoll, Writer.send, FutureProducer.send,
    FutureRecord.to, FutureRecord.setKey, FutureRecord.setPayload]

/-- Witness for C3 at a concrete input. -/
theorem c3_idle_message_submits_witness :
    ((Writer.new [UpResp.item "m"] "t" gen0 prod0).poll b0).1 = PollR.notReady ∧
    ((Writer.new [UpResp.item "m"] "t" gen0 prod0).poll b0).2.2.sent =
      b0.sent ++ [⟨"t", some (gen0.generate "m"), some "m"⟩] ∧
    ((Writer.new [UpResp.item "m"] "t" gen0 prod0).poll b0).2.1.outstanding =
      some (((Writer.new [UpResp.item "m"] "t" gen0 prod0).send b0 "m").1) ∧
    ((Writer.new [UpResp.item "m"] "t" gen0 prod0).poll b0).2.1.inner = [] :=
  c3_idle_message_submits (Writer.new [UpResp.item "m"] "t" gen0 prod0) b0 "m" []
    rfl rfl

/-- C4: the adapter holds zero or one Pending Delivery (before and after
any step), and a step that submits a new publish (the client's log grew)
starts from a state holding no Pending Delivery. -/
theorem c4_submit_only_when_idle {κ : Type} (w : Writer κ) (b : Broker κ)
    (hsub : (w.poll b).2.2.sent ≠ b.sent) :
    w.outstanding = none ∧ pendingCount w ≤ 1 ∧
    pendingCount (w.poll b).2.1 ≤ 1 := by
  refine ⟨?_, pendingCount_le_one w, pendingCount_le_one _⟩
  obtain ⟨inn, tp, gen, pr, outs⟩ := w
  cases outs with
  | none => rfl
  | some f =>
    exfalso
    apply hsub
    obtain ⟨d, oc⟩ := f
    cases d <;> cases oc <;> simp [Writer.poll, DeliveryFuture.poll]

/-- Witness for C4 at a concrete input. -/
theorem c4_submit_only_when_idle_witness :
    (Writer.new [UpResp.item "m"] "t" gen0 prod0).outstanding = none ∧
    pendingCount (Writer.new [UpResp.item "m"] "t" gen0 prod0) ≤ 1 ∧
    pendingCount ((Writer.new [UpResp.item "m"] "t" gen0 prod0).poll b0).2.1 ≤ 1 :=
  c4_submit_only_when_idle (Writer.new [UpResp.item "m"] "t" gen0 prod0) b0
    (by decide)

/-- C5: claimed — N upstream messages, all deliveries successful, imply
exactly N `Yield` signals then `End`.  With one upstream message whose
delivery resolves successfully after one not-ready poll, the drive
produces no `Yield` at all before `End`: the unresolved handle was
dropped, losing the completion signal. -/
theorem c5_success_counting_fails :
    (driveN 5 w0c5 b0c5).1 = [PollR.notReady, PollR.notReady, PollR.ended] ∧
    (driveN 5 w0c5 b0c5).1.count PollR.yield = 0 := by
  decide

/-- C6: claimed — a delivery failure is cleared, logged and swallowed
(which the code does per step), and consequently N messages with M < N
failures yield exactly N − M `Yield` signals then `End`.  With two
messages, one delayed success and one immediate failure (N = 2, M = 1),
the drive produces no `Yield` at all before `End` instead of one: the
delayed successful handle was dropped while unresolved. -/
theorem c6_failure_swallowing_count_fails :
    (driveN 6 w0c6 b0c6).1 =
      [PollR.notReady, PollR.notReady, PollR.notReady, PollR.notReady,
        PollR.ended] ∧
    (driveN 6 w0c6 b0c6).1.count PollR.yield = 0 := by
  decide

/-- C7: `advance` returns `Fail e` exactly when the adapter holds no
Pending Delivery and the upstream poll signals the error `e`: upstream
errors are propagated verbatim, and no other condition — in particular
no delivery failure — produces a `Fail`. -/
theorem c7_fail_iff_upstream_error {κ : Type} (w : Writer κ) (b : Broker κ)
    (e : String) :
    (w.poll b).1 = PollR.failed e ↔
      w.outstanding = none ∧ (upPoll w.inner).1 = UpResp.error e := by
  obtain ⟨inn, tp, gen, pr, outs⟩ := w
  cases outs with
  | some f =>
    obtain ⟨d, oc⟩ := f
    cases d <;> cases oc <;> simp [Writer.poll, DeliveryFuture.poll]
  | none =>
    cases inn with
    | nil => simp [Writer.poll, upPoll]
    | cons r rest =>
      cases r <;>
        simp [Writer.poll, upPoll, Writer.send, FutureProducer.send]

/-- C8 counterexample: claimed — after `advance` has returned `End`, no
subsequent call submits a further publish or polls upstream again.  The
code has no terminal latch: here the first call returns `End`, and the
next call polls upstream again and, upstream yielding a message, submits
a further publish and stores a new Pending Delivery. -/
theorem c8_poll_after_end_submits :
    (w0c8.poll b0).1 = PollR.ended ∧
    ((w0c8.poll b0).2.1.poll (w0c8.poll b0).2.2).2.2.sent.length = 1 ∧
    ((w0c8.poll b0).2.1.poll (w0c8.poll b0).2.2).2.1.outstanding ≠ none := by
  decide

/-- C8 (amended): after `advance` has returned `End` or a terminal
`Fail`, the adapter holds no Pending Delivery, but a subsequent call to
`advance` polls the upstream sequence again; that call submits a further
publish exactly when the renewed upstream poll yields a message, and if
upstream signals end-of-sequence again the call returns `End` again
without submitting. -/
theorem c8_post_terminal_resubmits_only_on_new_message {κ : Type}
    (w : Writer κ) (b b2 : Broker κ) (r : PollR) (w' : Writer κ)
    (b' : Broker κ)
    (hpoll : w.poll b = (r, w', b'))
    (hterm : r = PollR.ended ∨ ∃ e, r = PollR.failed e) :
    w'.outstanding = none ∧
    ((w'.poll b2).2.2.sent ≠ b2.sent ↔
      ∃ m rest, w'.inner = UpResp.item m :: rest) ∧
    ((upPoll w'.inner).1 = UpResp.ended →
      (w'.poll b2).1 = PollR.ended ∧ (w'.poll b2).2.2.sent = b2.sent) := by
  have hout : w'.outstanding = none := by
    obtain ⟨inn, tp, gen, pr, outs⟩ := w
    cases outs with
    | some f =>
      exfalso
      obtain ⟨d, oc⟩ := f
      cases d <;> cases oc <;>
        · simp [Writer.poll, DeliveryFuture.poll, Prod.ext_iff] at hpoll
          obtain ⟨hr, hw, hb⟩ := hpoll
          rcases hterm with h1 | ⟨e, h1⟩ <;> simp [← hr] at h1
    | none =>
      cases inn with
      | nil =>
        simp [Writer.poll, upPoll, Prod.ext_iff] at hpoll
        obtain ⟨hr, hw, hb⟩ := hpoll
        simp [← hw]
      | cons q rest =>
        cases q with
        | notReady =>
          simp [Writer.poll, upPoll, Prod.ext_iff] at hpoll
          obtain ⟨hr, hw, hb⟩ := hpoll
          exfalso
          rcases hterm with h1 | ⟨e, h1⟩ <;> simp [← hr] at h1
        | item msg =>
          simp [Writer.poll, upPoll, Writer.send, FutureProducer.send,
            Prod.ext_iff] at hpoll
          obtain ⟨hr, hw, hb⟩ := hpoll
          exfalso
          rcases hterm with h1 | ⟨e, h1⟩ <;> simp [← hr] at h1
        | ended =>
          simp [Writer.poll, upPoll, Prod.ext_iff] at hpoll
          obtain ⟨hr, hw, hb⟩ := hpoll
          simp [← hw]
        | error e' =>
          simp [Writer.poll, upPoll, Prod.ext_iff] at hpoll
          obtain ⟨hr, hw, hb⟩ := hpoll
          simp [← hw]
  exact ⟨hout, (idle_poll_submits_iff w' b2 hout).1,
    (idle_poll_submits_iff w' b2 hout).2⟩

/-- Witness for the amended C8 at a concrete input. -/
theorem c8_post_terminal_resubmits_only_on_new_message_witness :
    w1c8.outstanding = none ∧
    ((w1c8.poll b0).2.2.sent ≠ b0.sent ↔
      ∃ m rest, w1c8.inner = UpResp.item m :: rest) ∧
    ((upPoll w1c8.inner).1 = UpResp.ended →
      (w1c8.poll b0).1 = PollR.ended ∧ (w1c8.poll b0).2.2.sent = b0.sent) :=
  c8_post_terminal_resubmits_only_on_new_message w0c8 b0 b0 PollR.ended w1c8 b0
    rfl (Or.inl rfl)

/-- C9: construction is pure — `Writer::new` holds no Pending Delivery
(the initial state is `Idle`), does not consume any upstream input, and
stores the four inputs as given; it does not touch any broker state, so
no publish is submitted at construction time. -/
theorem c9_new_is_idle_and_pure {κ : Type} (stream : List UpResp)
    (topic : String) (generator : KeyGenerator κ)
    (producer : FutureProducer) :
    (Writer.new stream topic generator producer).outstanding = none ∧
    (Writer.new stream topic generator producer).inner = stream ∧
    (Writer.new stream topic generator producer).topic = topic ∧
    (Writer.new stream topic generator producer).generator = generator ∧
    (Writer.new stream topic generator producer).producer = producer :=
  ⟨rfl, rfl, rfl, rfl, rfl⟩

/-- C10: every `poll` step preserves the `topic`, `generator` and
`producer` fields of the writer (only `inner` and `outstanding` may
change), and `send` leaves the writer's fields entirely unchanged. -/
theorem c10_poll_send_frame {κ : Type} (w : Writer κ) (b : Broker κ)
    (msg : String) :
    ((w.poll b).2.1.topic = w.topic ∧
      (w.poll b).2.1.generator = w.generator ∧
      (w.poll b).2.1.producer = w.producer) ∧
    (w.send b msg).2.1 = w := by
  obtain ⟨inn, tp, gen, pr, outs⟩ := w
  refine ⟨?_, rfl⟩
  cases outs with
  | some f =>
    obtain ⟨d, oc⟩ := f
    cases d <;> cases oc <;> simp [Writer.poll, DeliveryFuture.poll]
  | none =>
    cases inn with
    | nil => simp [Writer.poll, upPoll]
    | cons q rest =>
      cases q <;>
        simp [Writer.poll, upPoll, Writer.send, FutureProducer.send]

end Surikafka
